import Mathlib

/-!
Verification of the multi-emitter scheduling engine of the jr/jg synthetic-data
generator (package `emitter`: `Initialize`, `DoLoop`, `doTemplate`, `RunPreload`,
`CloseProducers`, `WriteStats`, and the `Emitter` data model).

The Go source is shallowly embedded:

* `Emitter` mirrors the Go struct field for field.  `time.Duration` values and
  the `int`/`int64` fields become `Int` (nanoseconds for durations); the Go
  loops `for i := 0; i < n; i++` execute `n.toNat` iterations, which is exactly
  the Go behaviour for any (possibly negative) bound.  Counter overflow at
  2^63 is not reachable in any property below, so the counters are plain `Int`.
* The template engine (`tpl.NewTpl` / `Tpl.Execute`) and the locale lookup
  (`functions.IndexOf`) are external collaborators; they are abstracted by a
  `RenderOracle` that supplies the rendered `(key, value)` strings of the n-th
  produce call of the run and the country index of a locale.  The embedding
  counts every `tpl.NewTpl` invocation in the `parses` field of the run state,
  and records every `Producer.Produce` call in the `produced` list.
* The per-task goroutine of `DoLoop` is embedded as a function of the sequence
  of channel events (`select` outcomes) it observes; the timers themselves
  (`time.NewTicker`, `time.AfterFunc`) are embedded by the instant at which
  they fire.
-/

set_option autoImplicit false

namespace Jr

/-- Sink backends the `Emitter.Initialize` method can construct (emitter.go):
console (`stdout`), kafka, redis, mongo.  Sink internals are external
collaborators; only the backend kind matters to the scheduler. -/
inductive ProducerKind where
  | konsole
  | kafka
  | redis
  | mongo
  deriving DecidableEq, Repr

/-- The `Emitter` Go struct (emitter.go), field for field.  Durations are in
nanoseconds.  `Producer` is the owned sink: `none` embeds the nil interface
value it holds before (or in the absence of) successful construction. -/
structure Emitter where
  Name : String
  Locale : String
  Num : Int
  Frequency : Int
  Duration : Int
  Preload : Int
  ValueTemplate : String
  KeyTemplate : String
  OutputTemplate : String
  Output : String
  Topic : String
  Kcat : Bool
  Oneline : Bool
  Producer : Option ProducerKind
  deriving DecidableEq, Repr

/-- The shared `ctx.JrContext` fields touched by the scheduling engine:
the two cumulative counters and the per-pass locale fields. -/
structure JrCtx where
  GeneratedObjects : Int
  GeneratedBytes : Int
  Locale : String
  CountryIndex : Int
  deriving DecidableEq, Repr

/-- Observable state of a run: the shared context, the sequence of records
handed to `Producer.Produce` (in order, across all tasks), and the number of
`tpl.NewTpl` parse calls performed so far. -/
structure RunState where
  ctx : JrCtx
  produced : List (String × String)
  parses : Nat
  deriving DecidableEq, Repr

/-- Oracle for the external template engine and locale table: `render n` is the
`(key, value)` pair returned by `keyTpl.Execute` / `valueTpl.Execute` on the
n-th produce call of the run (a render-time error yields whatever best-effort
string the engine returns, e.g. empty), and `countryIndex` embeds
`functions.IndexOf(locale, "country")`. -/
structure RenderOracle where
  render : Nat → String × String
  countryIndex : String → Int

/-- One iteration of the record loop shared by `doTemplate` and `RunPreload`:
execute the key and value templates, call `Producer.Produce`, then increment
`GeneratedObjects` by one and `GeneratedBytes` by the byte length of the
rendered value (Go `len(v)` is the UTF-8 byte length). -/
def produceRecord (r : RenderOracle) (s : RunState) : RunState :=
  let kv := r.render s.produced.length
  { ctx := { s.ctx with
      GeneratedObjects := s.ctx.GeneratedObjects + 1
      GeneratedBytes := s.ctx.GeneratedBytes + (kv.2.utf8ByteSize : Int) }
    produced := s.produced ++ [kv]
    parses := s.parses }

/-- The record loop `for i := 0; i < n; i++ { ... }` of `doTemplate` /
`RunPreload`, run for `n` iterations. -/
def produceLoop (r : RenderOracle) : Nat → RunState → RunState
  | 0, s => s
  | n + 1, s => produceLoop r n (produceRecord r s)

/-- `doTemplate` (loop source): set the context's locale fields to the task's
locale, parse the key and the value template (`tpl.NewTpl` twice — errors are
logged and do not stop the pass), then produce `Num` records through the
task's sink, incrementing the shared counters per record. -/
def doTemplate (r : RenderOracle) (e : Emitter) (s : RunState) : RunState :=
  produceLoop r e.Num.toNat
    { s with
      ctx := { s.ctx with
        Locale := e.Locale
        CountryIndex := r.countryIndex e.Locale }
      parses := s.parses + 2 }

/-- `Emitter.RunPreload` (emitter.go): parse the key template and the value
template read from the template directory (`tpl.NewTpl` twice, errors logged),
then produce `Preload` records through the sink, incrementing the shared
counters per record.  The locale fields are not touched here. -/
def RunPreload (r : RenderOracle) (e : Emitter) (s : RunState) : RunState :=
  produceLoop r e.Preload.toNat { s with parses := s.parses + 2 }

/-- The `Emitter.Initialize` method (emitter.go): select the sink backend by
the `Output` label and store it in `Producer`; an `Output` matching no branch
(including the commented-out `http`) leaves `Producer` untouched. -/
def Emitter.Initialize (e : Emitter) : Emitter :=
  if e.Output = "stdout" then { e with Producer := some ProducerKind.konsole }
  else if e.Output = "kafka" then { e with Producer := some ProducerKind.kafka }
  else if e.Output = "redis" then { e with Producer := some ProducerKind.redis }
  else if e.Output = "mongo" ∨ e.Output = "mongodb" then
    { e with Producer := some ProducerKind.mongo }
  else e

/-- Modelled from the spec: `functions.Contains` (the `functions` package is
not part of the scheduling sources) — membership of a string in a list. -/
def Contains (xs : List String) (x : String) : Bool :=
  xs.contains x

/-- First loop of the package-level `Initialize` (loop source), taken when
`len(emitterNames) == 0`: for every emitter in order, run the `Initialize`
method and then `RunPreload`. -/
def initAllLoop (r : RenderOracle) : List Emitter → RunState → List Emitter × RunState
  | [], s => ([], s)
  | e :: es, s =>
    let e1 := e.Initialize
    let p := initAllLoop r es (RunPreload r e1 s)
    (e1 :: p.1, p.2)

/-- Second loop of the package-level `Initialize` (loop source): only the
emitters whose `Name` occurs in `emitterNames` are initialized and preloaded;
the others are left untouched. -/
def initNamedLoop (r : RenderOracle) (emitterNames : List String) :
    List Emitter → RunState → List Emitter × RunState
  | [], s => ([], s)
  | e :: es, s =>
    if Contains emitterNames e.Name then
      let e1 := e.Initialize
      let p := initNamedLoop r emitterNames es (RunPreload r e1 s)
      (e1 :: p.1, p.2)
    else
      let p := initNamedLoop r emitterNames es s
      (e :: p.1, p.2)

/-- The package-level `Initialize(emitterNames, es)` (loop source): with an
empty name list every emitter is initialized and preloaded, otherwise only the
emitters whose `Name` occurs in the list. -/
def Initialize (r : RenderOracle) (emitterNames : List String) (es : List Emitter)
    (s : RunState) : List Emitter × RunState :=
  if emitterNames.isEmpty then initAllLoop r es s
  else initNamedLoop r emitterNames es s

/-! ### The per-task goroutine of `DoLoop` -/

/-- The three channel events the `select` of a periodic task's goroutine can
observe: the shared interrupt context done (`controlC.Done()`), a ticker tick
(`ticker.C`), or the task's stop channel (fed by the `time.AfterFunc`
deadline). -/
inductive LoopEvent where
  | interruptDone
  | tick
  | stopSig
  deriving DecidableEq, Repr

/-- How a task's goroutine returned: via the shared interrupt, via the stop
channel of its lifetime deadline, or — for `Frequency <= 0` — directly after
its single immediate pass. -/
inductive StopCause where
  | interrupt
  | deadline
  | oneShot
  deriving DecidableEq, Repr

/-- The `for { select { ... } }` loop of a `Frequency > 0` task (loop source):
consume events in order; each tick runs one `doTemplate` pass; the interrupt
or the stop signal returns from the goroutine.  Result: number of passes
executed and the cause of return (`none` if the event list runs out with the
goroutine still blocked in `select`). -/
def selectLoop : List LoopEvent → Nat × Option StopCause
  | [] => (0, none)
  | LoopEvent.interruptDone :: _ => (0, some StopCause.interrupt)
  | LoopEvent.stopSig :: _ => (0, some StopCause.deadline)
  | LoopEvent.tick :: rest =>
    let p := selectLoop rest
    (p.1 + 1, p.2)

/-- The body of the per-task goroutine of `DoLoop`: a task with
`Frequency > 0` runs the ticker `select` loop over the events it observes; a
task with `Frequency <= 0` executes exactly one `doTemplate` pass and returns
at once, consulting no channel and no timer. -/
def goroutine (e : Emitter) (events : List LoopEvent) : Nat × Option StopCause :=
  if 0 < e.Frequency then selectLoop events else (1, some StopCause.oneShot)

/-- `DoLoop` arms `timers[i] = time.AfterFunc(es[i].Duration, send stop)` for
every task, unconditionally: the delay handed to the deadline timer is the
task's `Duration`, whatever its value. -/
def afterFuncDelay (e : Emitter) : Int :=
  e.Duration

/-- A Go timer armed with a non-positive delay fires immediately, so the stop
deadline of task `e` fires `max Duration 0` nanoseconds after start. -/
def deadlineFiresAt (e : Emitter) : Int :=
  max e.Duration 0

/-- Number of ticker ticks (at instants `Frequency, 2*Frequency, ...`) that
fire strictly before the task's stop deadline. -/
def ticksBeforeDeadline (e : Emitter) : Nat :=
  (deadlineFiresAt e - 1).toNat / e.Frequency.toNat

/-- The event sequence a task's goroutine observes when the global interrupt
never arrives: all ticker ticks strictly before the deadline, then the stop
signal sent by the `time.AfterFunc` callback. -/
def uninterruptedEvents (e : Emitter) : List LoopEvent :=
  List.replicate (ticksBeforeDeadline e) LoopEvent.tick ++ [LoopEvent.stopSig]

/-- `DoLoop` starts one goroutine per entry of `es` — every index is
scheduled, with no filtering on initialization outcome. -/
def scheduledIndices (es : List Emitter) : List Nat :=
  List.range es.length

/-- The interleaved sequence of `doTemplate` passes of a whole `DoLoop` run:
each schedule entry is the index of the task executing the next pass
(out-of-range entries execute nothing).  This serializes the concurrent tasks
at pass granularity, which makes every counter update one atomic step — an
abstraction the unsynchronized `++`/`+=` of the source does not justify for
counter values (see the `RaceState` model below for the faithful memory-access
granularity); it is adequate for what does not race: which passes run, what
they hand to the sinks, and how often they parse. -/
def doLoopSchedule (r : RenderOracle) (es : List Emitter) :
    List Nat → RunState → RunState
  | [], s => s
  | i :: rest, s =>
    match es[i]? with
    | some e => doLoopSchedule r es rest (doTemplate r e s)
    | none => doLoopSchedule r es rest s

/-- The run state at process start: zero counters, nothing produced, nothing
parsed. -/
def initState : RunState :=
  { ctx := { GeneratedObjects := 0, GeneratedBytes := 0, Locale := "us", CountryIndex := 0 }
    produced := []
    parses := 0 }

/-- A complete run as wired up in the jr command: package-level `Initialize`
with an empty name list (every emitter initialized and preloaded) starting
from the fresh context, followed by the `DoLoop` passes described by the
schedule `sched` (entry = index of the task firing next). -/
def fullRun (r : RenderOracle) (es : List Emitter) (sched : List Nat) : RunState :=
  doLoopSchedule r (Initialize r [] es initState).1 sched (Initialize r [] es initState).2

/-- Records-per-pass of the task at index `i` (0 for an out-of-range index,
which executes nothing). -/
def numOf (es : List Emitter) (i : Nat) : Nat :=
  (es[i]?.map (fun e => e.Num.toNat)).getD 0

/-- Sum of the UTF-8 byte lengths of the values of a produced-record list;
the keys (first components) do not occur. -/
def valueBytes (l : List (String × String)) : Int :=
  (l.map (fun kv => (kv.2.utf8ByteSize : Int))).sum

/-- Difference between the byte counter and the byte length of everything
produced so far — the invariant quantity of the record loop. -/
def bytesGap (s : RunState) : Int :=
  s.ctx.GeneratedBytes - valueBytes s.produced

/-- Sample emitter for the C1 witness: `Frequency = 0`, `Num = 5`, a nonzero
`Duration`, console sink. -/
def sampleOneShot : Emitter :=
  { Name := "one-shot", Locale := "us", Num := 5, Frequency := 0,
    Duration := 1000000000, Preload := 0, ValueTemplate := "v",
    KeyTemplate := "k", OutputTemplate := "", Output := "stdout",
    Topic := "test", Kcat := false, Oneline := false,
    Producer := some ProducerKind.konsole }

/-- Constant render oracle used by concrete witnesses: every record renders to
the key `"key"` and a fixed ten-byte value. -/
def sampleOracle : RenderOracle :=
  { render := fun _ => ("key", "0123456789")
    countryIndex := fun _ => 0 }

/-! ### Statistics reporting (`WriteStats`) -/

/-- The four fields `WriteStats` (loop source; `writeStats` in the run command
is identical) writes to stderr: the elapsed time rounded to whole seconds, the
two raw counters, and the throughput line — printed unconditionally as
`float64(GeneratedBytes) / elapsed.Seconds()` with no zero-elapsed guard (the
floating-point quotient itself is outside this embedding; only the line's
presence matters to the claims). -/
structure StatsReport where
  elapsedRounded : Int
  objects : Int
  bytes : Int
  throughputLine : Bool
  deriving DecidableEq, Repr

def nanosPerSecond : Int := 1000000000

/-- Go's `lessThanHalf(x, m)`: `x+x < m`. -/
def lessThanHalf (x m : Int) : Bool := x + x < m

/-- Go `time.Duration.Round(m)`: round `d` to the nearest multiple of `m`,
halfway values away from zero.  Restructured from the Go source, which
computes `r := d % m` (truncated division) and then branches on the sign of
`d`; for `0 ≤ d` the truncated remainder coincides with `d % m` below.  The
int64 overflow clamps (`minDuration` / `maxDuration`) are omitted: they are
unreachable in every property stated here. -/
def durationRound (d m : Int) : Int :=
  if m ≤ 0 then d
  else if d < 0 then
    (if lessThanHalf (-(d.tmod m)) m then d + -(d.tmod m) else d - m + -(d.tmod m))
  else
    (if lessThanHalf (d % m) m then d - d % m else d + m - d % m)

/-- `WriteStats` (loop source): elapsed rounded to a whole second, the two raw
counters, and the unconditional throughput line. -/
def WriteStats (elapsed : Int) (c : JrCtx) : StatsReport :=
  { elapsedRounded := durationRound elapsed nanosPerSecond
    objects := c.GeneratedObjects
    bytes := c.GeneratedBytes
    throughputLine := true }

/-! ### Sink teardown (`CloseProducers`) -/

inductive CloseOutcome where
  | closed
  | processExit
  deriving DecidableEq, Repr

/-- Close behaviour of one sink, given whether its underlying close fails.
`RedisProducer.Close` (redis producer source) calls `log.Fatalf` — which
terminates the whole process — when the client's close returns an error.
Modelled from the spec: the console/kafka/mongo close implementations are
external collaborators whose `close()` just returns to the caller. -/
def producerClose (k : ProducerKind) (closeFails : Bool) : CloseOutcome :=
  match k with
  | ProducerKind.redis =>
    if closeFails then CloseOutcome.processExit else CloseOutcome.closed
  | _ => CloseOutcome.closed

/-- `CloseProducers` (loop source): walk the emitters in order from index `i`,
closing every non-nil `Producer` (`if p != nil { p.Close() }`).  `closeFails j`
says whether task j's underlying close errors.  Result: how many producers
were closed, and whether the process survived (a `log.Fatalf` inside a close
stops everything on the spot). -/
def CloseProducers (closeFails : Nat → Bool) : List Emitter → Nat → Nat × Bool
  | [], _ => (0, true)
  | e :: es, i =>
    match e.Producer with
    | none => CloseProducers closeFails es (i + 1)
    | some k =>
      match producerClose k (closeFails i) with
      | CloseOutcome.closed =>
        let p := CloseProducers closeFails es (i + 1)
        (p.1 + 1, p.2)
      | CloseOutcome.processExit => (0, false)

/-- Teardown as wired in the jr command: `CloseProducers` over all emitters,
then `WriteStats` — which is reached only if no close called `log.Fatalf`. -/
def runTeardown (closeFails : Nat → Bool) (es : List Emitter) (elapsed : Int)
    (c : JrCtx) : Nat × Option StatsReport :=
  ((CloseProducers closeFails es 0).1,
    if (CloseProducers closeFails es 0).2 then some (WriteStats elapsed c) else none)

/-! ### The shared-counter increment, at machine granularity -/

/-- Shared-counter state for the increment interleaving model: the shared
counter plus the two tasks' private intermediate values. -/
structure IncState where
  counter : Int
  reg0 : Int
  reg1 : Int
  deriving DecidableEq, Repr

/-- The two halves of the unsynchronized `ctx.JrContext.GeneratedObjects++`
performed by two concurrent tasks: a Go increment of a shared field is a load
followed by a store of value+1, and nothing in the source orders one task's
two halves against the other task's. -/
inductive IncAction where
  | load0
  | store0
  | load1
  | store1
  deriving DecidableEq, Repr

def incStep (s : IncState) : IncAction → IncState
  | IncAction.load0 => { s with reg0 := s.counter }
  | IncAction.store0 => { s with counter := s.reg0 + 1 }
  | IncAction.load1 => { s with reg1 := s.counter }
  | IncAction.store1 => { s with counter := s.reg1 + 1 }

def runInc : IncState → List IncAction → IncState
  | s, [] => s
  | s, a :: rest => runInc (incStep s a) rest

def isTask0 : IncAction → Bool
  | IncAction.load0 => true
  | IncAction.store0 => true
  | _ => false

/-- The interleaving in which both tasks load the counter before either
stores. -/
def lostUpdateSchedule : List IncAction :=
  [IncAction.load0, IncAction.load1, IncAction.store0, IncAction.store1]

/-! ### The whole record body of two concurrent tasks, at memory-access
granularity -/

/-- Shared state for the record-race model: the two shared counters, the
records handed to the sinks (both tasks), and each task's private intermediate
value of each counter load. -/
structure RaceState where
  objects : Int
  bytes : Int
  produced : List (String × String)
  objReg0 : Int
  objReg1 : Int
  bytesReg0 : Int
  bytesReg1 : Int
  deriving DecidableEq, Repr

/-- The memory accesses of one record iteration of the loop body shared by
`doTemplate` and `RunPreload`, for each of two concurrent tasks: the
`Producer.Produce` call, then the load and store halves of
`GeneratedObjects++`, then the load and store halves of
`GeneratedBytes += int64(len(v))` — the source orders these within one task
but provides nothing ordering one task's halves against the other's. -/
inductive RaceAction where
  | produce0
  | loadObj0
  | storeObj0
  | loadBytes0
  | storeBytes0
  | produce1
  | loadObj1
  | storeObj1
  | loadBytes1
  | storeBytes1
  deriving DecidableEq, Repr

/-- One scheduler step of the two-task record body.  `kv0` and `kv1` are the
records the two tasks render (key and value strings). -/
def raceStep (kv0 kv1 : String × String) (s : RaceState) : RaceAction → RaceState
  | RaceAction.produce0 => { s with produced := s.produced ++ [kv0] }
  | RaceAction.loadObj0 => { s with objReg0 := s.objects }
  | RaceAction.storeObj0 => { s with objects := s.objReg0 + 1 }
  | RaceAction.loadBytes0 => { s with bytesReg0 := s.bytes }
  | RaceAction.storeBytes0 => { s with bytes := s.bytesReg0 + (kv0.2.utf8ByteSize : Int) }
  | RaceAction.produce1 => { s with produced := s.produced ++ [kv1] }
  | RaceAction.loadObj1 => { s with objReg1 := s.objects }
  | RaceAction.storeObj1 => { s with objects := s.objReg1 + 1 }
  | RaceAction.loadBytes1 => { s with bytesReg1 := s.bytes }
  | RaceAction.storeBytes1 => { s with bytes := s.bytesReg1 + (kv1.2.utf8ByteSize : Int) }

def runRace (kv0 kv1 : String × String) : RaceState → List RaceAction → RaceState
  | s, [] => s
  | s, a :: rest => runRace kv0 kv1 (raceStep kv0 kv1 s a) rest

/-- Program order of task 0's record body, as written in the source:
produce, then the objects increment, then the bytes addition. -/
def recordProgram0 : List RaceAction :=
  [RaceAction.produce0, RaceAction.loadObj0, RaceAction.storeObj0,
    RaceAction.loadBytes0, RaceAction.storeBytes0]

/-- Program order of task 1's record body. -/
def recordProgram1 : List RaceAction :=
  [RaceAction.produce1, RaceAction.loadObj1, RaceAction.storeObj1,
    RaceAction.loadBytes1, RaceAction.storeBytes1]

def isRaceTask0 : RaceAction → Bool
  | RaceAction.produce0 => true
  | RaceAction.loadObj0 => true
  | RaceAction.storeObj0 => true
  | RaceAction.loadBytes0 => true
  | RaceAction.storeBytes0 => true
  | _ => false

/-- The interleaving in which the two tasks load each shared counter before
either stores it back. -/
def racySchedule : List RaceAction :=
  [RaceAction.produce0, RaceAction.produce1,
    RaceAction.loadObj0, RaceAction.loadObj1,
    RaceAction.storeObj0, RaceAction.storeObj1,
    RaceAction.loadBytes0, RaceAction.loadBytes1,
    RaceAction.storeBytes0, RaceAction.storeBytes1]

/-- The shared state at the start of the two racing records: counters zero,
nothing produced. -/
def raceStart : RaceState :=
  { objects := 0, bytes := 0, produced := [], objReg0 := 0, objReg1 := 0,
    bytesReg0 := 0, bytesReg1 := 0 }

/-- The record both racing tasks render: the key `"key"` and a fixed ten-byte
value, as supplied by `sampleOracle`. -/
def kvTen : String × String := ("key", "0123456789")

/-! ### Sample data for concrete theorems -/

/-- A periodic task with `Duration = 0`: per the spec it should run until the
global interrupt. -/
def samplePeriodic : Emitter :=
  { Name := "periodic", Locale := "us", Num := 1, Frequency := 1000000000,
    Duration := 0, Preload := 0, ValueTemplate := "v", KeyTemplate := "k",
    OutputTemplate := "", Output := "stdout", Topic := "test", Kcat := false,
    Oneline := false, Producer := some ProducerKind.konsole }

/-- A task that preloads one record and then runs passes of one record. -/
def sampleTwoPass : Emitter :=
  { Name := "twopass", Locale := "us", Num := 1, Frequency := 1000000000,
    Duration := 5000000000, Preload := 1, ValueTemplate := "v",
    KeyTemplate := "k", OutputTemplate := "", Output := "stdout",
    Topic := "test", Kcat := false, Oneline := false,
    Producer := some ProducerKind.konsole }

/-- A task whose `Output` matches no backend branch: its sink construction
yields nothing and `Producer` stays nil. -/
def sampleHttp : Emitter :=
  { Name := "http-task", Locale := "us", Num := 3, Frequency := 0,
    Duration := 0, Preload := 0, ValueTemplate := "v", KeyTemplate := "k",
    OutputTemplate := "", Output := "http", Topic := "test", Kcat := false,
    Oneline := false, Producer := none }

/-- A task with a redis sink. -/
def sampleRedis : Emitter :=
  { Name := "redis-task", Locale := "us", Num := 1, Frequency := 0,
    Duration := 0, Preload := 0, ValueTemplate := "v", KeyTemplate := "k",
    OutputTemplate := "", Output := "redis", Topic := "test", Kcat := false,
    Oneline := false, Producer := some ProducerKind.redis }

/-- A context holding some generated data. -/
def sampleCtx : JrCtx :=
  { GeneratedObjects := 5, GeneratedBytes := 50, Locale := "us", CountryIndex := 0 }

/-! ### Basic lemmas about the record loop -/

theorem produceLoop_produced_length (r : RenderOracle) (n : Nat) (s : RunState) :
    (produceLoop r n s).produced.length = s.produced.length + n := by
  induction n generalizing s with
  | zero => rfl
  | succ k ih =>
    simp only [produceLoop, ih, produceRecord, List.length_append, List.length_cons,
      List.length_nil]
    omega

theorem produceLoop_objects (r : RenderOracle) (n : Nat) (s : RunState) :
    (produceLoop r n s).ctx.GeneratedObjects = s.ctx.GeneratedObjects + n := by
  induction n generalizing s with
  | zero => simp [produceLoop]
  | succ k ih =>
    simp only [produceLoop, ih, produceRecord]
    push_cast
    ring

theorem produceLoop_parses (r : RenderOracle) (n : Nat) (s : RunState) :
    (produceLoop r n s).parses = s.parses := by
  induction n generalizing s with
  | zero => rfl
  | succ k ih => simp [produceLoop, ih, produceRecord]

theorem doTemplate_produced_length (r : RenderOracle) (e : Emitter) (s : RunState) :
    (doTemplate r e s).produced.length = s.produced.length + e.Num.toNat := by
  simp [doTemplate, produceLoop_produced_length]

theorem doTemplate_objects (r : RenderOracle) (e : Emitter) (s : RunState) :
    (doTemplate r e s).ctx.GeneratedObjects = s.ctx.GeneratedObjects + e.Num.toNat := by
  simp [doTemplate, produceLoop_objects]

theorem doTemplate_parses (r : RenderOracle) (e : Emitter) (s : RunState) :
    (doTemplate r e s).parses = s.parses + 2 := by
  simp [doTemplate, produceLoop_parses]

theorem RunPreload_objects (r : RenderOracle) (e : Emitter) (s : RunState) :
    (RunPreload r e s).ctx.GeneratedObjects = s.ctx.GeneratedObjects + e.Preload.toNat := by
  simp [RunPreload, produceLoop_objects]

theorem RunPreload_parses (r : RenderOracle) (e : Emitter) (s : RunState) :
    (RunPreload r e s).parses = s.parses + 2 := by
  simp [RunPreload, produceLoop_parses]

/-! ### The `Initialize` method changes only the `Producer` field -/

theorem Emitter.Initialize_Num (e : Emitter) : e.Initialize.Num = e.Num := by
  unfold Emitter.Initialize
  repeat' split
  all_goals rfl

theorem Emitter.Initialize_Preload (e : Emitter) : e.Initialize.Preload = e.Preload := by
  unfold Emitter.Initialize
  repeat' split
  all_goals rfl

/-! ### Byte accounting -/

theorem valueBytes_append (l : List (String × String)) (kv : String × String) :
    valueBytes (l ++ [kv]) = valueBytes l + (kv.2.utf8ByteSize : Int) := by
  simp [valueBytes]

theorem produceRecord_gap (r : RenderOracle) (s : RunState) :
    bytesGap (produceRecord r s) = bytesGap s := by
  simp only [bytesGap, produceRecord, valueBytes_append]
  ring

theorem produceLoop_gap (r : RenderOracle) (n : Nat) (s : RunState) :
    bytesGap (produceLoop r n s) = bytesGap s := by
  induction n generalizing s with
  | zero => rfl
  | succ k ih => rw [produceLoop, ih, produceRecord_gap]

theorem doTemplate_gap (r : RenderOracle) (e : Emitter) (s : RunState) :
    bytesGap (doTemplate r e s) = bytesGap s := by
  rw [doTemplate, produceLoop_gap]
  rfl

theorem RunPreload_gap (r : RenderOracle) (e : Emitter) (s : RunState) :
    bytesGap (RunPreload r e s) = bytesGap s := by
  rw [RunPreload, produceLoop_gap]
  rfl

theorem initAllLoop_gap (r : RenderOracle) (es : List Emitter) (s : RunState) :
    bytesGap (initAllLoop r es s).2 = bytesGap s := by
  induction es generalizing s with
  | nil => rfl
  | cons e t ih => rw [initAllLoop, ih, RunPreload_gap]

theorem doLoopSchedule_gap (r : RenderOracle) (es : List Emitter) (sched : List Nat)
    (s : RunState) : bytesGap (doLoopSchedule r es sched s) = bytesGap s := by
  induction sched generalizing s with
  | nil => rfl
  | cons i t ih =>
    rw [doLoopSchedule]
    cases h : es[i]? with
    | none => rw [ih]
    | some e => rw [ih, doTemplate_gap]

/-! ### Object accounting -/

theorem initAllLoop_fst (r : RenderOracle) (es : List Emitter) (s : RunState) :
    (initAllLoop r es s).1 = es.map Emitter.Initialize := by
  induction es generalizing s with
  | nil => rfl
  | cons e t ih => simp [initAllLoop, ih]

theorem initAllLoop_objects (r : RenderOracle) (es : List Emitter) (s : RunState) :
    (initAllLoop r es s).2.ctx.GeneratedObjects =
      s.ctx.GeneratedObjects + ((es.map (fun e => e.Preload.toNat)).sum : Int) := by
  induction es generalizing s with
  | nil => simp [initAllLoop]
  | cons e t ih =>
    rw [initAllLoop, ih, RunPreload_objects, Emitter.Initialize_Preload]
    simp only [List.map_cons, List.sum_cons]
    omega

theorem doLoopSchedule_objects (r : RenderOracle) (es : List Emitter) (sched : List Nat)
    (s : RunState) :
    (doLoopSchedule r es sched s).ctx.GeneratedObjects =
      s.ctx.GeneratedObjects + ((sched.map (fun j => numOf es j)).sum : Int) := by
  induction sched generalizing s with
  | nil => simp [doLoopSchedule]
  | cons i t ih =>
    rw [doLoopSchedule]
    cases h : es[i]? with
    | none =>
      rw [ih]
      simp [numOf, h]
    | some e =>
      rw [ih, doTemplate_objects]
      have hn : numOf es i = e.Num.toNat := by simp [numOf, h]
      simp only [List.map_cons, List.sum_cons, hn]
      omega

theorem numOf_of_le (es : List Emitter) (j : Nat) (h : es.length ≤ j) : numOf es j = 0 := by
  simp [numOf, List.getElem?_eq_none h]

theorem numOf_map_init (es : List Emitter) (i : Nat) :
    numOf (es.map Emitter.Initialize) i = numOf es i := by
  cases h : es[i]? with
  | none => simp [numOf, h, List.getElem?_map]
  | some e => simp [numOf, h, List.getElem?_map, Emitter.Initialize_Num]

theorem sum_map_numOf (es : List Emitter) (sched : List Nat) :
    (sched.map (fun j => numOf es j)).sum =
      ∑ i in Finset.range es.length, numOf es i * sched.count i := by
  induction sched with
  | nil => simp
  | cons j t ih =>
    have hcount : ∀ i : Nat, (j :: t).count i = t.count i + if j = i then 1 else 0 := by
      intro i
      rw [List.count_cons]
      simp
    simp only [List.map_cons, List.sum_cons, ih, hcount, Nat.mul_add, mul_ite, mul_one,
      mul_zero, Finset.sum_add_distrib, Finset.sum_ite_eq]
    by_cases hj : j < es.length
    · simp only [Finset.mem_range.mpr hj, if_true]
      omega
    · rw [if_neg (fun hmem => hj (Finset.mem_range.mp hmem))]
      rw [numOf_of_le es j (le_of_not_lt hj)]
      omega

/-! ### Counter sums under the pass-serialized abstraction

These two lemmas hold only in the serialized model, in which each pass — and
hence each counter update — is one atomic step: they state what the counters
would add up to if the increments were synchronized.  The source's increments
are not synchronized, and the race theorems further below show the equalities
fail at the real memory-access granularity. -/

/-- Under the pass-serialized abstraction: after a full run, `GeneratedObjects`
equals the sum over all tasks of `Preload` plus `Num` times the number of
passes that task executed (the record loop increments unconditionally, also
when rendering failed and the oracle returned a best-effort string). -/
theorem generatedObjects_counts_all_records (r : RenderOracle) (es : List Emitter)
    (sched : List Nat) :
    (fullRun r es sched).ctx.GeneratedObjects =
      ((es.map (fun e => e.Preload.toNat)).sum : Int) +
        ((∑ i in Finset.range es.length, numOf es i * sched.count i : Nat) : Int) := by
  have hinit : Initialize r [] es initState = initAllLoop r es initState := by
    simp [Initialize]
  rw [fullRun, hinit, doLoopSchedule_objects, initAllLoop_objects, initAllLoop_fst]
  have hnum : (sched.map (fun j => numOf (es.map Emitter.Initialize) j)).sum =
      (sched.map (fun j => numOf es j)).sum := by
    simp only [numOf_map_init]
  rw [hnum, sum_map_numOf]
  simp [initState]

/-- Under the pass-serialized abstraction: after a full run, `GeneratedBytes`
equals the sum of the UTF-8 byte lengths of every emitted value — preload
records and scheduled-pass records alike; key bytes never enter the counter
(only the value component of each produced record is summed). -/
theorem generatedBytes_counts_value_bytes (r : RenderOracle) (es : List Emitter)
    (sched : List Nat) :
    (fullRun r es sched).ctx.GeneratedBytes = valueBytes (fullRun r es sched).produced := by
  have hinit : Initialize r [] es initState = initAllLoop r es initState := by
    simp [Initialize]
  have hgap : bytesGap (fullRun r es sched) = bytesGap initState := by
    rw [fullRun, hinit, doLoopSchedule_gap, initAllLoop_gap]
  have h0 : bytesGap (fullRun r es sched) = 0 := by
    rw [hgap]
    decide
  simp only [bytesGap] at h0
  omega

/-! ### Claim C10 -/

theorem initNamedLoop_fst (r : RenderOracle) (names : List String) (es : List Emitter)
    (s : RunState) :
    (initNamedLoop r names es s).1 =
      es.map (fun e => if Contains names e.Name then e.Initialize else e) := by
  induction es generalizing s with
  | nil => rfl
  | cons e t ih =>
    rw [initNamedLoop]
    by_cases h : Contains names e.Name <;> simp [h, ih]

theorem initNamedLoop_objects (r : RenderOracle) (names : List String) (es : List Emitter)
    (s : RunState) :
    (initNamedLoop r names es s).2.ctx.GeneratedObjects =
      s.ctx.GeneratedObjects +
        (((es.filter (fun e => Contains names e.Name)).map
          (fun e => e.Preload.toNat)).sum : Int) := by
  induction es generalizing s with
  | nil => simp [initNamedLoop]
  | cons e t ih =>
    rw [initNamedLoop]
    by_cases h : Contains names e.Name
    · rw [if_pos h, ih, RunPreload_objects, Emitter.Initialize_Preload]
      simp only [List.filter_cons, h, if_true, List.map_cons, List.sum_cons]
      omega
    · rw [if_neg h, ih]
      simp only [List.filter_cons, h, if_false]
      simp [h]

/-- Claim C10: the package-level `Initialize` initializes and preloads exactly
the emitters selected by the name list — all of them when the list is empty,
otherwise precisely those whose `Name` occurs in it — and returns every other
emitter untouched (in particular its `Producer` stays nil when it was nil).
The preload work done is exactly the sum of the selected emitters' `Preload`
counts. -/
theorem Initialize_name_filter (r : RenderOracle) (names : List String)
    (es : List Emitter) (s : RunState) :
    (Initialize r names es s).1 =
      es.map (fun e =>
        if names.isEmpty || Contains names e.Name then e.Initialize else e) ∧
    (Initialize r names es s).2.ctx.GeneratedObjects =
      s.ctx.GeneratedObjects +
        (((es.filter (fun e => names.isEmpty || Contains names e.Name)).map
          (fun e => e.Preload.toNat)).sum : Int) := by
  unfold Initialize
  by_cases h : names.isEmpty
  · simp only [h, if_true, Bool.true_or]
    constructor
    · simp [initAllLoop_fst]
    · simp [initAllLoop_objects]
  · simp only [h, if_false, Bool.false_or]
    exact ⟨initNamedLoop_fst r names es s, initNamedLoop_objects r names es s⟩

/-! ### Claim C1 -/

/-- Claim C1: a task with `Frequency <= 0` executes exactly one pass — its
goroutine performs a single `doTemplate` call producing `Num` records through
the task's sink — and returns immediately, whatever channel events (deadline
signal, interrupt) occur and whatever its `Duration` is; no ticker and no
timer event is consulted. -/
theorem frequency_nonpos_one_pass (e : Emitter) (events : List LoopEvent)
    (r : RenderOracle) (s : RunState) (h : e.Frequency ≤ 0) :
    goroutine e events = (1, some StopCause.oneShot) ∧
      (doTemplate r e s).produced.length = s.produced.length + e.Num.toNat := by
  constructor
  · simp [goroutine, not_lt.mpr h]
  · exact doTemplate_produced_length r e s

theorem frequency_nonpos_one_pass_witness :
    goroutine sampleOneShot [LoopEvent.stopSig] = (1, some StopCause.oneShot) ∧
      (doTemplate sampleOracle sampleOneShot initState).produced.length =
        initState.produced.length + sampleOneShot.Num.toNat :=
  frequency_nonpos_one_pass sampleOneShot [LoopEvent.stopSig] sampleOracle initState
    (by decide)

/-! ### Claim C2 -/

/-- Claim C2 fails on the code: `DoLoop` arms `time.AfterFunc(Duration, stop)`
for every task unconditionally, so a `Duration = 0` deadline is armed with
delay zero and fires immediately; with no interrupt anywhere, the periodic
task receives the stop signal before its first tick and transitions to
Stopped by the deadline after zero passes, instead of running forever. -/
theorem zero_duration_deadline_stops_task :
    afterFuncDelay samplePeriodic = 0 ∧
      uninterruptedEvents samplePeriodic = [LoopEvent.stopSig] ∧
      goroutine samplePeriodic (uninterruptedEvents samplePeriodic) =
        (0, some StopCause.deadline) := by
  decide

/-! ### Claim C5 -/

/-- Claim C5 fails on the code: with one task preloading once and executing
two scheduled passes, six `tpl.NewTpl` parse calls happen — two in
`RunPreload` and two in every `doTemplate` pass — where parse-once-per-task
would give two. -/
theorem pass_reparses_templates :
    (fullRun sampleOracle [sampleTwoPass] [0, 0]).parses = 6 ∧
      ¬ (fullRun sampleOracle [sampleTwoPass] [0, 0]).parses = 2 := by
  constructor
  · rfl
  · intro h
    simp only [show (fullRun sampleOracle [sampleTwoPass] [0, 0]).parses = 6 from rfl] at h
    omega

/-- Claim C5 amended: templates are parsed on every pass, not once at
initialization — each `doTemplate` invocation performs exactly two `tpl.NewTpl`
calls (key and value), and `RunPreload` performs two more of its own; no
parsed template is carried from one pass to the next. -/
theorem templates_parsed_every_pass (r : RenderOracle) (e : Emitter) (s : RunState) :
    (doTemplate r e s).parses = s.parses + 2 ∧
      (RunPreload r e s).parses = s.parses + 2 :=
  ⟨doTemplate_parses r e s, RunPreload_parses r e s⟩

/-! ### Claim C6 -/

/-- Claim C6 fails on the code: with a redis task whose underlying close
errors followed by a console task, the redis `Close` hits `log.Fatalf`, the
process dies, zero sinks are closed, the console sink is never closed, and no
statistics report is produced. -/
theorem redis_close_fatal :
    (runTeardown (fun _ => true) [sampleRedis, sampleOneShot] 0 sampleCtx).1 = 0 ∧
      (runTeardown (fun _ => true) [sampleRedis, sampleOneShot] 0 sampleCtx).2 = none := by
  decide

theorem CloseProducers_all_closed (closeFails : Nat → Bool) (es : List Emitter) (j : Nat)
    (h : ∀ i e k, es[i]? = some e → e.Producer = some k →
      producerClose k (closeFails (j + i)) = CloseOutcome.closed) :
    CloseProducers closeFails es j =
      ((es.filter (fun e => e.Producer.isSome)).length, true) := by
  induction es generalizing j with
  | nil => rfl
  | cons e t ih =>
    have hshift : ∀ i e1 k, t[i]? = some e1 → e1.Producer = some k →
        producerClose k (closeFails (j + 1 + i)) = CloseOutcome.closed := by
      intro i e1 k h1 h2
      have h3 : (e :: t)[i + 1]? = some e1 := by simpa using h1
      have h4 := h (i + 1) e1 k h3 h2
      have h5 : j + (i + 1) = j + 1 + i := by omega
      rw [h5] at h4
      exact h4
    rw [CloseProducers]
    cases hp : e.Producer with
    | none => simp [hp, ih (j + 1) hshift, List.filter_cons]
    | some k =>
      have h0 : producerClose k (closeFails j) = CloseOutcome.closed := by
        have h6 := h 0 e k (by simp) hp
        simpa using h6
      dsimp only
      rw [h0]
      simp [hp, ih (j + 1) hshift, List.filter_cons]

/-- Claim C6 amended: the `Producer.Close` interface returns nothing, so a
close failure never surfaces as an error through the scheduler's contract, and
`CloseProducers` closes every non-nil producer in order — but only as long as
no close is process-fatal: whenever every producer's close outcome is
non-fatal (in particular when no redis sink's underlying close fails), all
non-nil producers are closed and the statistics report is produced.  A failing
redis close, by contrast, terminates the process and skips both. -/
theorem close_nonfatal_closes_all (closeFails : Nat → Bool) (es : List Emitter)
    (elapsed : Int) (c : JrCtx)
    (h : ∀ i e k, es[i]? = some e → e.Producer = some k →
      producerClose k (closeFails i) = CloseOutcome.closed) :
    (runTeardown closeFails es elapsed c).1 =
        (es.filter (fun e => e.Producer.isSome)).length ∧
      (runTeardown closeFails es elapsed c).2 = some (WriteStats elapsed c) := by
  have hall := CloseProducers_all_closed closeFails es 0 (by
    intro i e k h1 h2
    have h3 := h i e k h1 h2
    simpa using h3)
  rw [runTeardown, hall]
  exact ⟨rfl, rfl⟩

theorem close_nonfatal_closes_all_witness :
    (runTeardown (fun _ => true) [sampleOneShot] 0 sampleCtx).1 =
        (([sampleOneShot].filter (fun e => e.Producer.isSome)).length) ∧
      (runTeardown (fun _ => true) [sampleOneShot] 0 sampleCtx).2 =
        some (WriteStats 0 sampleCtx) :=
  close_nonfatal_closes_all (fun _ => true) [sampleOneShot] 0 sampleCtx (by
    intro i e k h1 h2
    match i with
    | 0 =>
      rw [show ([sampleOneShot])[0]? = some sampleOneShot from rfl] at h1
      cases h1
      rw [show sampleOneShot.Producer = some ProducerKind.konsole from rfl] at h2
      cases h2
      rfl
    | n + 1 =>
      simp at h1)

/-! ### Claim C7 -/

/-- Claim C7 fails on the code: at zero elapsed time the report still contains
the throughput line — `WriteStats` prints it unconditionally, performing the
division by the zero elapsed seconds instead of omitting the line. -/
theorem throughput_line_at_zero_elapsed :
    (WriteStats 0 sampleCtx).throughputLine = true ∧
      (WriteStats 0 sampleCtx).elapsedRounded = 0 := by
  decide

/-- Claim C7 amended: the report always contains the raw object and byte
counts and always contains the throughput line, also at zero elapsed time
(there is no zero-elapsed guard); the elapsed time shown is rounded to a whole
second — a multiple of 10^9 nanoseconds within half a second of the true
elapsed time. -/
theorem stats_report_shape (elapsed : Int) (c : JrCtx) (h : 0 ≤ elapsed) :
    (WriteStats elapsed c).objects = c.GeneratedObjects ∧
      (WriteStats elapsed c).bytes = c.GeneratedBytes ∧
      (WriteStats elapsed c).throughputLine = true ∧
      nanosPerSecond ∣ (WriteStats elapsed c).elapsedRounded ∧
      2 * ((WriteStats elapsed c).elapsedRounded - elapsed) ≤ nanosPerSecond ∧
      -nanosPerSecond ≤ 2 * ((WriteStats elapsed c).elapsedRounded - elapsed) := by
  have hm : ¬ (nanosPerSecond ≤ 0) := by norm_num [nanosPerSecond]
  have hmpos : (0 : Int) < nanosPerSecond := by norm_num [nanosPerSecond]
  have hd : ¬ (elapsed < 0) := not_lt.mpr h
  have hround : (WriteStats elapsed c).elapsedRounded =
      if lessThanHalf (elapsed % nanosPerSecond) nanosPerSecond
      then elapsed - elapsed % nanosPerSecond
      else elapsed + nanosPerSecond - elapsed % nanosPerSecond := by
    show durationRound elapsed nanosPerSecond = _
    rw [durationRound, if_neg hm, if_neg hd]
  have h1 : 0 ≤ elapsed % nanosPerSecond :=
    Int.emod_nonneg elapsed (by norm_num [nanosPerSecond])
  have h2 : elapsed % nanosPerSecond < nanosPerSecond :=
    Int.emod_lt_of_pos elapsed hmpos
  have hdvd : nanosPerSecond ∣ (elapsed - elapsed % nanosPerSecond) := by
    refine ⟨elapsed / nanosPerSecond, ?_⟩
    have h3 := Int.ediv_add_emod elapsed nanosPerSecond
    omega
  have hlt : lessThanHalf (elapsed % nanosPerSecond) nanosPerSecond = true ↔
      elapsed % nanosPerSecond + elapsed % nanosPerSecond < nanosPerSecond := by
    simp [lessThanHalf]
  refine ⟨rfl, rfl, rfl, ?_, ?_, ?_⟩
  · rw [hround]
    by_cases hh : elapsed % nanosPerSecond + elapsed % nanosPerSecond < nanosPerSecond
    · rw [if_pos (hlt.mpr hh)]
      exact hdvd
    · rw [if_neg (fun hb => hh (hlt.mp hb))]
      have h4 : elapsed + nanosPerSecond - elapsed % nanosPerSecond =
          (elapsed - elapsed % nanosPerSecond) + nanosPerSecond := by ring
      rw [h4]
      exact dvd_add hdvd dvd_rfl
  · rw [hround]
    by_cases hh : elapsed % nanosPerSecond + elapsed % nanosPerSecond < nanosPerSecond
    · rw [if_pos (hlt.mpr hh)]
      omega
    · rw [if_neg (fun hb => hh (hlt.mp hb))]
      omega
  · rw [hround]
    by_cases hh : elapsed % nanosPerSecond + elapsed % nanosPerSecond < nanosPerSecond
    · rw [if_pos (hlt.mpr hh)]
      omega
    · rw [if_neg (fun hb => hh (hlt.mp hb))]
      omega

theorem stats_report_shape_witness :
    (WriteStats 1500000000 sampleCtx).objects = sampleCtx.GeneratedObjects ∧
      (WriteStats 1500000000 sampleCtx).bytes = sampleCtx.GeneratedBytes ∧
      (WriteStats 1500000000 sampleCtx).throughputLine = true ∧
      nanosPerSecond ∣ (WriteStats 1500000000 sampleCtx).elapsedRounded ∧
      2 * ((WriteStats 1500000000 sampleCtx).elapsedRounded - 1500000000) ≤ nanosPerSecond ∧
      -nanosPerSecond ≤ 2 * ((WriteStats 1500000000 sampleCtx).elapsedRounded - 1500000000) :=
  stats_report_shape 1500000000 sampleCtx (by norm_num)

/-! ### Claim C8 -/

/-- Claim C8 fails on the code: a task whose `Output` (`"http"`) matches no
backend keeps a nil `Producer` after initialization, yet `DoLoop` schedules it
— the scheduled index set is always the full range — and, its frequency being
non-positive, its goroutine executes its pass (in Go, dereferencing the nil
producer). -/
theorem failed_init_task_scheduled :
    (Emitter.Initialize sampleHttp).Producer = none ∧
      scheduledIndices [Emitter.Initialize sampleHttp] = [0] ∧
      goroutine (Emitter.Initialize sampleHttp) [] = (1, some StopCause.oneShot) := by
  decide

/-- Claim C8 amended: `DoLoop` schedules every emitter of the slice
unconditionally — initialization cannot mark a task as failed: the
`Initialize` method reports nothing, an unmatched `Output` merely leaves
`Producer` untouched (nil stays nil), and the task is scheduled all the same;
backend construction failures inside the producer initializers are
process-fatal (`log.Fatalf`) rather than surfaced per task. -/
theorem doLoop_schedules_every_emitter (es : List Emitter) (e : Emitter)
    (h : e.Output ≠ "stdout" ∧ e.Output ≠ "kafka" ∧ e.Output ≠ "redis" ∧
      e.Output ≠ "mongo" ∧ e.Output ≠ "mongodb") :
    (Emitter.Initialize e).Producer = e.Producer ∧
      scheduledIndices es = List.range es.length := by
  refine ⟨?_, rfl⟩
  unfold Emitter.Initialize
  rw [if_neg h.1, if_neg h.2.1, if_neg h.2.2.1,
    if_neg (fun hc => hc.elim h.2.2.2.1 h.2.2.2.2)]

theorem doLoop_schedules_every_emitter_witness :
    (Emitter.Initialize sampleHttp).Producer = sampleHttp.Producer ∧
      scheduledIndices [sampleHttp, samplePeriodic] =
        List.range ([sampleHttp, samplePeriodic]).length :=
  doLoop_schedules_every_emitter [sampleHttp, samplePeriodic] sampleHttp (by
    refine ⟨?_, ?_, ?_, ?_, ?_⟩ <;> decide)

/-! ### Claim C9 -/

/-- Claim C9 fails on the code (and the spec marks this as the defect to fix):
the increments of the shared counters are plain unsynchronized
read-modify-write.  In the interleaving where both tasks load the counter
before either stores — legal, since it preserves each task's program order, as
the two filters exhibit — two increments leave the counter at 1: one update is
lost, which atomic increments would make impossible. -/
theorem nonatomic_increment_loses_update :
    lostUpdateSchedule.filter isTask0 = [IncAction.load0, IncAction.store0] ∧
      lostUpdateSchedule.filter (fun a => ! isTask0 a) =
        [IncAction.load1, IncAction.store1] ∧
      (runInc { counter := 0, reg0 := 0, reg1 := 0 } lostUpdateSchedule).counter = 1 := by
  decide

/-! ### Claim C3 -/

/-- Claim C3 fails on the code as written: two concurrent tasks, each with
`Preload = 0` and `Num = 1`, each execute exactly one pass of one record, so
the claimed equality predicts `GeneratedObjects = (0 + 1*1) + (0 + 1*1) = 2`;
but `ctx.JrContext.GeneratedObjects++` is an unsynchronized load-then-store,
and in the interleaving where both tasks load the counter before either
stores — legal, as the two filters show it preserves both tasks' program
orders — both records are produced through the sinks yet the final counter is
1: one record's increment is lost, not "exactly once".  The claim (and the
spec, whose design notes call the missing synchronization a defect to fix) is
the intent; the code lacks it. -/
theorem racy_objects_miss_schedule_sum :
    racySchedule.filter isRaceTask0 = recordProgram0 ∧
      racySchedule.filter (fun a => ! isRaceTask0 a) = recordProgram1 ∧
      (runRace kvTen kvTen raceStart racySchedule).produced.length = 2 ∧
      (runRace kvTen kvTen raceStart racySchedule).objects = 1 ∧
      ¬ (runRace kvTen kvTen raceStart racySchedule).objects = 2 := by
  decide

/-! ### Claim C4 -/

/-- Claim C4 fails on the code as written: two concurrent tasks each emit one
ten-byte value, so the claimed equality predicts `GeneratedBytes = 20`, the
sum of the emitted values' byte lengths; but
`GeneratedBytes += int64(len(v))` is an unsynchronized load-then-store, and in
the interleaving where both tasks load the counter before either stores —
legal, per the two program-order filters — the final counter is 10 while the
produced values total 20 bytes: the counter does not equal the sum. -/
theorem racy_bytes_miss_value_sum :
    racySchedule.filter isRaceTask0 = recordProgram0 ∧
      racySchedule.filter (fun a => ! isRaceTask0 a) = recordProgram1 ∧
      valueBytes (runRace kvTen kvTen raceStart racySchedule).produced = 20 ∧
      (runRace kvTen kvTen raceStart racySchedule).bytes = 10 ∧
      ¬ (runRace kvTen kvTen raceStart racySchedule).bytes =
          valueBytes (runRace kvTen kvTen raceStart racySchedule).produced := by
  decide

end Jr
